import Mathlib

/-!
Verification of the log-analyzer-agent repository's specification against its
source code.

The development shallowly embeds the JavaScript/TypeScript source:

* `writeToFile`, `loggerLog`, `writeLogRoute` embed `src/api/lib/logger.js`'s
  `writeToFile`, `logger.log` and the `/api/write-log` route of
  `src/api/app.js`.  The persisted file is modelled by `StoreFile`
  (absent / well-formed JSON array of entries / corrupt raw text), file reads
  and writes by explicit state passing, and injected I/O faults by the two
  boolean parameters `readFails` / `writeFails`.
* `logsRoute` embeds the `/api/logs` handler of `src/api/app.js`.  JavaScript
  `new Date(s).getTime()` is modelled by an abstract parse function
  `pd : String → Option Int` (`none` = `NaN`); JavaScript number falsiness
  (`null`, `NaN` and `0` are all falsy) is modelled by `timeTruthy`.
* `createSchedule` embeds `ScheduleManager.createSchedule` of
  `src/mastra/lib/schedule-manager.ts`; the external LLM call
  `agent.generate` is modelled by an `Except String String` parameter.
* `getLogs` embeds `getLogs` of `src/mastra/tools/log-analyser-tool.ts`.
-/

/-- Argument of `writeToFile` (`{level, message, status}` in the source);
`status` is optional. -/
structure LogInput where
  level : String
  message : String
  status : Option String
deriving DecidableEq, Repr

/-- A persisted log entry (the `messageObj` shape of `writeToFile`).
`timestamp` is optional because the read path must handle stored entries
lacking a timestamp field. -/
structure LogEntry where
  timestamp : Option String
  level : String
  status : String
  message : String
deriving DecidableEq, Repr

/-- State of the persisted `logs.json` file: missing, a well-formed JSON
array of log entries, or raw content that `JSON.parse` cannot turn into an
array (this includes the empty file, whose content `""` is not valid JSON). -/
inductive StoreFile where
  | absent
  | wellFormed (entries : List LogEntry)
  | corrupt (raw : String)
deriving DecidableEq, Repr

/-- JavaScript `s || d` for an optional string: `undefined` and `""` are
falsy and give the default. -/
def jsOrDefault (s : Option String) (d : String) : String :=
  match s with
  | none => d
  | some v => if v == "" then d else v

/-- The `messageObj` constructed by `writeToFile` (`status: log.status || "N/A"`),
with `now` the value of `getTimestamp()`. -/
def messageObj (now : String) (log : LogInput) : LogEntry :=
  { timestamp := some now
    level := log.level
    status := jsOrDefault log.status "N/A"
    message := log.message }

/-- The source's `existingLogs.reverse().slice(0, 488).reverse()`: keep the
last (newest) 488 elements, preserving order. -/
def sliceLast488 (l : List LogEntry) : List LogEntry :=
  ((l.reverse).take 488).reverse

/-- The `try` block of `writeToFile`: read the existing store (empty list if
the file is absent), parse it, truncate, append, write.  Each fallible step
is an `Except` error, matching the exceptions `readFileSync`, `JSON.parse`
and `writeFileSync` can throw. -/
def writeToFileBody (readFails writeFails : Bool) (now : String)
    (file : StoreFile) (log : LogInput) : Except String StoreFile :=
  let entry := messageObj now log
  match file with
  | StoreFile.absent =>
      -- existsSync is false: existing logs are []
      if writeFails then Except.error "write failure"
      else Except.ok (StoreFile.wellFormed [entry])
  | StoreFile.wellFormed existingLogs =>
      if readFails then Except.error "read failure"
      else if writeFails then Except.error "write failure"
      else Except.ok (StoreFile.wellFormed (sliceLast488 existingLogs ++ [entry]))
  | StoreFile.corrupt _ =>
      if readFails then Except.error "read failure"
      else Except.error "JSON parse failure"

/-- Function `writeToFile` of `logger.js`: the whole body runs inside `try/catch`;
a caught error leaves the file as it was and is reported on the side
channel (`console.error`), never rethrown.  Returns the new file state and
the optional side-channel message. -/
def writeToFile (readFails writeFails : Bool) (now : String)
    (file : StoreFile) (log : LogInput) : StoreFile × Option String :=
  match writeToFileBody readFails writeFails now file log with
  | Except.ok f => (f, none)
  | Except.error msg => (file, some ("Failed to write to log file: " ++ msg))

/-- Function `logger.log`: fixes the level to `"INFO"` and delegates to `writeToFile`. -/
def loggerLog (readFails writeFails : Bool) (now : String)
    (file : StoreFile) (message : String) (status : Option String) :
    StoreFile × Option String :=
  writeToFile readFails writeFails now file
    { level := "INFO", message := message, status := status }

/-- Result of the `/api/write-log` route: `400` when `level` or `message` is
missing (falsy), otherwise `201` with the new file state and the writer's
side-channel message. -/
inductive WriteLogResult where
  | badRequest
  | created (file : StoreFile) (sideChannel : Option String)
deriving DecidableEq, Repr

/-- The `/api/write-log` handler of `app.js`: validates `level`/`message`
(JS falsiness: the empty string is missing) and dispatches through
`logger.log`. -/
def writeLogRoute (readFails writeFails : Bool) (now : String)
    (file : StoreFile) (level message : String) (status : Option String) :
    WriteLogResult :=
  if level == "" || message == "" then WriteLogResult.badRequest
  else
    let r := loggerLog readFails writeFails now file message status
    WriteLogResult.created r.1 r.2

/-- Iterated store: `n` consecutive fault-free appends of the same entry starting from an
absent store file. -/
def appendN (now : String) (log : LogInput) : Nat → StoreFile
  | 0 => StoreFile.absent
  | n + 1 => (writeToFile false false now (appendN now log n) log).1

/-- Number of entries in a well-formed store file. -/
def storeLength : StoreFile → Option Nat
  | StoreFile.wellFormed l => some l.length
  | _ => none

/-- JSON.stringify of one entry (compact, as emitted by the filtered
branch of `/api/logs`); `undefined` fields are omitted, key order follows
the `messageObj` construction.  String escaping is not modelled (no claim
exercises it). -/
def stringifyEntry (e : LogEntry) : String :=
  (match e.timestamp with
   | some ts => "\x7b\"timestamp\":\"" ++ ts ++ "\","
   | none => "\x7b") ++
  "\"level\":\"" ++ e.level ++ "\",\"status\":\"" ++ e.status ++
  "\",\"message\":\"" ++ e.message ++ "\"\x7d"

/-- Body written by the filtered branch of `/api/logs`: `[`, the qualifying
entries comma-joined in order, `]`. -/
def jsonArrayBody (es : List LogEntry) : String :=
  "[" ++ String.intercalate "," (es.map stringifyEntry) ++ "]"

/-- Content written to the store file by `writeToFile`
(`JSON.stringify(logs, null, 2)`); the 2-space pretty-printing of the inner
objects is abstracted, but `[]` for the empty array and the bracket/newline
skeleton are kept.  No claim inspects these bytes beyond (non-)emptiness. -/
def serializeStore (logs : List LogEntry) : String :=
  if logs.isEmpty then "[]"
  else "[\n  " ++ String.intercalate ",\n  " (logs.map stringifyEntry) ++ "\n]"

/-- Raw bytes of the store file as seen by `createReadStream`: `none` when
the file does not exist (the stream then emits an error event). -/
def fileContent : StoreFile → Option String
  | StoreFile.absent => none
  | StoreFile.wellFormed l => some (serializeStore l)
  | StoreFile.corrupt raw => some raw

/-- The handler's `isValidParam`: `param && param !== "null" && param !== "undefined"`
(an absent or empty parameter is falsy). -/
def isValidParam : Option String → Bool
  | none => false
  | some s => !(s == "") && !(s == "null") && !(s == "undefined")

/-- The `fromTime`/`toTime` computation of the handler:
`isValidParam(p) ? new Date(p).getTime() : null`.  The outer `Option` is
JavaScript `null`, the inner `Option` is `NaN` from an unparseable date. -/
def timeOf (pd : String → Option Int) (p : Option String) : Option (Option Int) :=
  match p with
  | none => none
  | some s => if isValidParam (some s) then some (pd s) else none

/-- JavaScript truthiness of a time value: `null`, `NaN` and `0` are falsy. -/
def timeTruthy : Option (Option Int) → Bool
  | some (some t) => t != 0
  | _ => false

/-- Comparison `logTime >= bound` with JavaScript `NaN` semantics: any comparison
involving `NaN` is false.  (The bound is only compared when truthy, hence
`some (some y)`.) -/
def geTime (logTime : Option Int) (bound : Option (Option Int)) : Bool :=
  match logTime, bound with
  | some x, some (some y) => decide (y ≤ x)
  | _, _ => false

/-- Comparison `logTime <= bound` with JavaScript `NaN` semantics. -/
def leTime (logTime : Option Int) (bound : Option (Option Int)) : Bool :=
  match logTime, bound with
  | some x, some (some y) => decide (x ≤ y)
  | _, _ => false

/-- Per-entry treatment of the filtered branch: `if (!log.timestamp) return;`
(an absent or empty timestamp string is falsy), then
`passesFilter = (!fromTime || logTime >= fromTime) && (!toTime || logTime <= toTime)`. -/
def entryPasses (pd : String → Option Int) (fromTime toTime : Option (Option Int))
    (log : LogEntry) : Bool :=
  match log.timestamp with
  | none => false
  | some ts =>
    if ts == "" then false
    else
      let logTime := pd ts
      (!timeTruthy fromTime || geTime logTime fromTime) &&
      (!timeTruthy toTime || leTime logTime toTime)

/-- Core of the `/api/logs` handler, after `fromTime`/`toTime` have been
computed.  `if (!fromTime && !toTime)` streams the raw file (a missing file
makes the stream error and the handler answer 500, modelled as
`Except.error ()`).  Otherwise the accumulated content is parsed: a
well-formed array is filtered and emitted; if the parse never succeeds
(missing data aside, any corrupt content) the `end` handler emits `[]`. -/
def logsRouteCore (pd : String → Option Int) (file : StoreFile)
    (fromTime toTime : Option (Option Int)) : Except Unit String :=
  if !timeTruthy fromTime && !timeTruthy toTime then
    match fileContent file with
    | none => Except.error ()
    | some raw => Except.ok raw
  else
    match file with
    | StoreFile.absent => Except.error ()
    | StoreFile.wellFormed logsArray =>
        Except.ok (jsonArrayBody (logsArray.filter (entryPasses pd fromTime toTime)))
    | StoreFile.corrupt _ => Except.ok "[]"

/-- The `/api/logs` handler of `app.js`, over an abstract date parser `pd`
modelling `new Date(s).getTime()` (`none` = `NaN`). -/
def logsRoute (pd : String → Option Int) (file : StoreFile)
    (fromP toP : Option String) : Except Unit String :=
  logsRouteCore pd file (timeOf pd fromP) (timeOf pd toP)

/-- Modelled from the spec's words for claim C2: the value of a *valid
supplied* `from`/`to` bound.  Per the spec only `"null"`, `"undefined"` and
unparseable dates are treated as absent, so a bound parsing to the epoch
(time 0) still counts as supplied. -/
def specBoundVal (pd : String → Option Int) (p : Option String) : Option Int :=
  match p with
  | none => none
  | some s => if !(s == "null") && !(s == "undefined") then pd s else none

/-- Modelled from the spec's words: whether a `from`/`to` parameter is a
valid supplied bound. -/
def specSuppliedBound (pd : String → Option Int) (p : Option String) : Bool :=
  (specBoundVal pd p).isSome

/-- Modelled from the spec's words for claim C2 (as stated): an entry
qualifies when it has a parseable timestamp `t` with
`(from absent OR t >= from) AND (to absent OR t <= to)`, both bounds
inclusive; entries lacking a timestamp are excluded unconditionally. -/
def specPassOrig (pd : String → Option Int) (fromP toP : Option String)
    (log : LogEntry) : Bool :=
  match log.timestamp with
  | none => false
  | some ts =>
    if ts == "" then false
    else
      match pd ts with
      | none => false
      | some t =>
        (match specBoundVal pd fromP with
         | none => true
         | some f => decide (f ≤ t)) &&
        (match specBoundVal pd toP with
         | none => true
         | some u => decide (t ≤ u))

/-- Effective bound of the amended claim C2: a bound only restricts the
query when it is supplied, not `"null"`/`"undefined"`, parseable, and parses
to a nonzero time (the code treats a bound whose `getTime()` is the falsy
number `0` as absent). -/
def truthyVal (pd : String → Option Int) (p : Option String) : Option Int :=
  match timeOf pd p with
  | some (some t) => if t == 0 then none else some t
  | _ => none

/-- Whether a `from`/`to` parameter acts as a bound (amended claim C2). -/
def truthyBound (pd : String → Option Int) (p : Option String) : Bool :=
  (truthyVal pd p).isSome

/-- Spec-side filter of the amended claim C2: like `specPassOrig` but with
absence meaning "not a truthy bound". -/
def specPassTruthy (pd : String → Option Int) (fromP toP : Option String)
    (log : LogEntry) : Bool :=
  match log.timestamp with
  | none => false
  | some ts =>
    if ts == "" then false
    else
      match pd ts with
      | none => false
      | some t =>
        (match truthyVal pd fromP with
         | none => true
         | some f => decide (f ≤ t)) &&
        (match truthyVal pd toP with
         | none => true
         | some u => decide (t ≤ u))

/-- Concrete date parser used for witnesses and counterexamples: the exact
values `new Date(s).getTime()` yields in JavaScript on these ISO strings,
`none` (`NaN`) elsewhere. -/
def pdEx : String → Option Int := fun s =>
  if s == "1970-01-01T00:00:00.000Z" then some 0
  else if s == "1970-01-01T00:00:00.001Z" then some 1
  else if s == "1970-01-01T00:00:00.002Z" then some 2
  else if s == "1970-01-01T00:00:00.003Z" then some 3
  else none

/-- An entry with a timestamp field missing. -/
def noTsEntry : LogEntry :=
  { timestamp := none, level := "INFO", status := "N/A", message := "x" }

/-- A small concrete store with increasing timestamps t1 < t2 < t3. -/
def demoStore : List LogEntry :=
  [ { timestamp := some "1970-01-01T00:00:00.001Z", level := "INFO",
      status := "N/A", message := "a" },
    { timestamp := some "1970-01-01T00:00:00.002Z", level := "WARN",
      status := "N/A", message := "b" },
    { timestamp := some "1970-01-01T00:00:00.003Z", level := "ERROR",
      status := "500", message := "c" } ]

/-- Structure `ScheduleConfig` of `schedule-manager.ts`. -/
structure ScheduleConfig where
  id : String
  endpoint : String
  interval : String
  cronExpression : String
  authToken : Option String
  timeRange : Option String
  createdAt : String
deriving DecidableEq, Repr

/-- In-memory state of `ScheduleManager`: the `schedules` map (insertion
ordered, as a JavaScript `Map`) and the `scheduleCounter`. -/
structure ScheduleState where
  schedules : List (String × ScheduleConfig)
  counter : Nat
deriving DecidableEq, Repr

/-- JavaScript `Map.set`: replace in place when the key exists, append otherwise. -/
def setAssoc (l : List (String × ScheduleConfig)) (k : String)
    (v : ScheduleConfig) : List (String × ScheduleConfig) :=
  if l.any (fun p => p.1 == k) then
    l.map (fun p => if p.1 == k then (k, v) else p)
  else l ++ [(k, v)]

/-- The `options` argument of `createSchedule`. -/
structure ScheduleOptions where
  authToken : Option String
  timeRange : Option String
deriving DecidableEq, Repr

/-- Result object of a successful `createSchedule` (the long instruction
message is abbreviated to its first sentence; no claim inspects it). -/
structure CreateResult where
  id : String
  cronExpression : String
  message : String
deriving DecidableEq, Repr

/-- Cleanup `response.text.trim().replace(/[`'"]/g, "")` of `parseToCronExpression`. -/
def cleanCron (s : String) : String :=
  String.mk ((s.trim).toList.filter
    (fun c => !(c == Char.ofNat 96 || c == Char.ofNat 39 || c == Char.ofNat 34)))

/-- Method `parseToCronExpression`: awaits the external agent (whose outcome is the
`agentResult` parameter; a rejected promise is `Except.error`) and cleans up
its text. -/
def parseToCronExpression (agentResult : Except String String) :
    Except String String :=
  match agentResult with
  | Except.error e => Except.error e
  | Except.ok text => Except.ok (cleanCron text)

/-- Method `ScheduleManager.createSchedule`: derives the cron expression via the
external agent, generates `schedule-<counter>-<Date.now()>`, stores the
config, and returns id/cron/message.  The surrounding `try/catch` rethrows
any error wrapped as "Failed to create schedule: ...". -/
def createSchedule (st : ScheduleState) (endpoint interval : String)
    (agentResult : Except String String) (options : ScheduleOptions)
    (nowMs : Nat) (nowIso : String) :
    Except String (ScheduleState × CreateResult) :=
  match parseToCronExpression agentResult with
  | Except.error e => Except.error ("Failed to create schedule: " ++ e)
  | Except.ok cronExpression =>
    let counter := st.counter + 1
    let scheduleId := "schedule-" ++ toString counter ++ "-" ++ toString nowMs
    let config : ScheduleConfig :=
      { id := scheduleId
        endpoint := endpoint
        interval := interval
        cronExpression := cronExpression
        authToken := options.authToken
        timeRange := some (jsOrDefault options.timeRange "last 1 hour")
        createdAt := nowIso }
    Except.ok
      ({ schedules := setAssoc st.schedules scheduleId config, counter := counter },
       { id := scheduleId
         cronExpression := cronExpression
         message := "Schedule created successfully! Schedule ID: " ++ scheduleId })

/-- The `fetch` response as `getLogs` observes it. -/
structure HttpResponse where
  status : Nat
  statusText : String
  body : Option String
deriving DecidableEq, Repr

/-- Field `response.ok`: status in the inclusive range 200–299. -/
def respOk (r : HttpResponse) : Bool :=
  decide (200 ≤ r.status ∧ r.status ≤ 299)

/-- Function `getLogs` of `log-analyser-tool.ts`: non-2xx statuses throw, with
401/403 classified as an authentication failure; a null body throws; the
collected body is `JSON.parse`d (`parseJson` models it, `none` = syntax
error, whose exact message is abstracted). -/
def getLogs (parseJson : String → Option (List LogEntry))
    (resp : HttpResponse) : Except String (List LogEntry) :=
  if !respOk resp then
    if resp.status == 401 || resp.status == 403 then
      Except.error ("Authentication required: " ++
        (toString resp.status ++ (" " ++ (resp.statusText ++
          ". Please provide a valid auth token."))))
    else
      Except.error ("Failed to fetch logs: " ++
        (toString resp.status ++ (" " ++ resp.statusText)))
  else
    match resp.body with
    | none => Except.error "Response body is null"
    | some b =>
      match parseJson b with
      | none => Except.error "JSON parse error"
      | some v => Except.ok v

theorem sliceLast488_length (l : List LogEntry) :
    (sliceLast488 l).length = min 488 l.length := by
  simp [sliceLast488]

theorem writeToFile_wellFormed (now : String) (l : List LogEntry) (log : LogInput) :
    writeToFile false false now (StoreFile.wellFormed l) log =
      (StoreFile.wellFormed (sliceLast488 l ++ [messageObj now log]), none) := rfl

theorem appendN_length (now : String) (log : LogInput) :
    ∀ n : Nat, ∃ l, appendN now log (n + 1) = StoreFile.wellFormed l ∧
      l.length = min (n + 1) 489 := by
  intro n
  induction n with
  | zero => exact ⟨[messageObj now log], rfl, rfl⟩
  | succ n ih =>
    obtain ⟨l, hl, hlen⟩ := ih
    refine ⟨sliceLast488 l ++ [messageObj now log], ?_, ?_⟩
    · show (writeToFile false false now (appendN now log (n + 1)) log).1 = _
      rw [hl, writeToFile_wellFormed]
    · rw [List.length_append, sliceLast488_length, hlen]
      simp only [List.length_cons, List.length_nil]
      omega

/-- Claim C1 (code_bug): the spec and the code's own comment ("store only
the last 500 logs") promise that after N appends the persisted store holds
min(N, 500) entries, but `writeToFile` keeps only
`existingLogs.reverse().slice(0, 488).reverse()` before appending, so after
490 appends from an absent store only 489 entries survive instead of 490. -/
theorem c1_retention_boundary :
    storeLength (appendN "2025-11-03T10:30:00.000Z"
      { level := "INFO", message := "msg", status := none } 490) = some 489 ∧
    489 ≠ min 490 500 := by
  constructor
  · obtain ⟨l, hl, hlen⟩ :=
      appendN_length "2025-11-03T10:30:00.000Z"
        { level := "INFO", message := "msg", status := none } 489
    rw [hl]
    simp [storeLength, hlen]
  · decide

/-- Claim C4, counterexample: appending while the store file holds corrupt
content does not reset it to a one-entry history; `JSON.parse` throws inside
the `try`, the `catch` swallows the error, and the file is left unchanged
(still corrupt), so the persisted store is not the one-entry array the claim
requires. -/
theorem c4_corrupt_counterexample :
    (writeToFile false false "T" (StoreFile.corrupt "not json")
      { level := "INFO", message := "m", status := none }).1
      = StoreFile.corrupt "not json" ∧
    (writeToFile false false "T" (StoreFile.corrupt "not json")
      { level := "INFO", message := "m", status := none }).1
      ≠ StoreFile.wellFormed [⟨some "T", "INFO", "N/A", "m"⟩] := by
  constructor
  · rfl
  · decide

/-- Claim C4 (amended): an append on a corrupt store file never crashes the
caller — the parse error is caught and reported to the side channel — but no
silent reset happens: the write is aborted, the file keeps its corrupt
content, and the new entry is not persisted. -/
theorem c4_corrupt_append_amended (raw now : String) (log : LogInput) :
    writeToFile false false now (StoreFile.corrupt raw) log =
      (StoreFile.corrupt raw, some "Failed to write to log file: JSON parse failure") := rfl

/-- Claim C8 (confirmed): every failure during an append — file read
failure, JSON parse failure, or file write failure — is caught by
`writeToFile`'s `try/catch` and only reported to the side channel; the
function always returns normally (it is total), the caller's process
continues, and on a read or parse failure the file is left as it was. -/
theorem c8_append_never_throws (now : String) (file : StoreFile)
    (log : LogInput) (raw : String) (h : file ≠ StoreFile.absent) :
    ((writeToFile true false now file log).1 = file ∧
      ((writeToFile true false now file log).2).isSome = true) ∧
    writeToFile false false now (StoreFile.corrupt raw) log =
      (StoreFile.corrupt raw,
        some "Failed to write to log file: JSON parse failure") ∧
    ((writeToFile false true now file log).2).isSome = true := by
  refine ⟨⟨?_, ?_⟩, rfl, ?_⟩ <;>
    cases file <;> first | rfl | exact absurd rfl h

/-- Witness for C8 at a concrete store, entry and fault pattern. -/
theorem c8_append_never_throws_witness :
    ((writeToFile true false "T" (StoreFile.wellFormed demoStore)
        { level := "INFO", message := "m", status := none }).1
        = StoreFile.wellFormed demoStore ∧
      ((writeToFile true false "T" (StoreFile.wellFormed demoStore)
        { level := "INFO", message := "m", status := none }).2).isSome = true) ∧
    writeToFile false false "T" (StoreFile.corrupt "garbage")
      { level := "INFO", message := "m", status := none } =
      (StoreFile.corrupt "garbage",
        some "Failed to write to log file: JSON parse failure") ∧
    ((writeToFile false true "T" (StoreFile.wellFormed demoStore)
      { level := "INFO", message := "m", status := none }).2).isSome = true :=
  c8_append_never_throws "T" (StoreFile.wellFormed demoStore)
    { level := "INFO", message := "m", status := none } "garbage" (by decide)

/-- Claim C6 (confirmed): every request accepted by `/api/write-log`
(both `level` and `message` supplied) is dispatched through `logger.log`,
which hard-codes the level, so the entry persisted to the store has level
`"INFO"` regardless of the level in the request body. -/
theorem c6_level_forced_info (now : String) (l : List LogEntry)
    (level message : String) (status : Option String)
    (h1 : level ≠ "") (h2 : message ≠ "") :
    ∃ l', writeLogRoute false false now (StoreFile.wellFormed l)
        level message status =
        WriteLogResult.created (StoreFile.wellFormed l') none ∧
      ∃ e, l'.getLast? = some e ∧ e.level = "INFO" := by
  refine ⟨sliceLast488 l ++ [messageObj now ⟨"INFO", message, status⟩], ?_,
    messageObj now ⟨"INFO", message, status⟩, ?_, rfl⟩
  · unfold writeLogRoute
    have hc : (level == "" || message == "") = false := by
      simp [h1, h2]
    rw [hc]
    rfl
  · simp [List.getLast?_append]

/-- Witness for C6: a request carrying level "ERROR" is persisted as "INFO". -/
theorem c6_level_forced_info_witness :
    ∃ l', writeLogRoute false false "T" (StoreFile.wellFormed demoStore)
        "ERROR" "hello" none =
        WriteLogResult.created (StoreFile.wellFormed l') none ∧
      ∃ e, l'.getLast? = some e ∧ e.level = "INFO" :=
  c6_level_forced_info "T" demoStore "ERROR" "hello" none (by decide) (by decide)

/-- Claim C5, counterexample: the write path accepts
`{level: "ERROR", message: "boom"}` but persists it with level `"INFO"`
(the route goes through `logger.log`), so the last element after the append
does not deep-equal the submitted entry modulo the timestamp: its level
differs. -/
theorem c5_level_overwrite_counterexample :
    writeLogRoute false false "T" (StoreFile.wellFormed []) "ERROR" "boom" none =
      WriteLogResult.created
        (StoreFile.wellFormed [⟨some "T", "INFO", "N/A", "boom"⟩]) none ∧
    ("INFO" : String) ≠ "ERROR" := ⟨rfl, by decide⟩

/-- Claim C5 (amended): appending an accepted entry `e` and then querying
`/api/logs` with no bounds yields (the serialization of) a sequence whose
last element agrees with `e` on the message, carries level `"INFO"`
regardless of `e.level`, status `e.status` when supplied and non-empty and
`"N/A"` otherwise, plus the server-assigned timestamp. -/
theorem c5_round_trip_amended (pd : String → Option Int) (now : String)
    (l : List LogEntry) (level message : String) (status : Option String)
    (h1 : level ≠ "") (h2 : message ≠ "") :
    ∃ l', writeLogRoute false false now (StoreFile.wellFormed l)
        level message status =
        WriteLogResult.created (StoreFile.wellFormed l') none ∧
      l'.getLast? = some ⟨some now, "INFO", jsOrDefault status "N/A", message⟩ ∧
      logsRoute pd (StoreFile.wellFormed l') none none =
        Except.ok (serializeStore l') := by
  refine ⟨sliceLast488 l ++ [messageObj now ⟨"INFO", message, status⟩], ?_, ?_, rfl⟩
  · unfold writeLogRoute
    have hc : (level == "" || message == "") = false := by
      simp [h1, h2]
    rw [hc]
    rfl
  · simp [List.getLast?_append, messageObj]

/-- Witness for C5 (amended) at a concrete accepted entry. -/
theorem c5_round_trip_amended_witness :
    ∃ l', writeLogRoute false false "T" (StoreFile.wellFormed demoStore)
        "WARN" "m" (some "200") =
        WriteLogResult.created (StoreFile.wellFormed l') none ∧
      l'.getLast? = some ⟨some "T", "INFO", jsOrDefault (some "200") "N/A", "m"⟩ ∧
      logsRoute pdEx (StoreFile.wellFormed l') none none =
        Except.ok (serializeStore l') :=
  c5_round_trip_amended pdEx "T" demoStore "WARN" "m" (some "200")
    (by decide) (by decide)

theorem truthyBound_eq (pd : String → Option Int) (p : Option String) :
    truthyBound pd p = timeTruthy (timeOf pd p) := by
  unfold truthyBound truthyVal
  cases h : timeOf pd p with
  | none => rfl
  | some o =>
    cases o with
    | none => rfl
    | some t =>
      by_cases ht : t = 0 <;> simp [timeTruthy, ht]

theorem geTime_side (pd : String → Option Int) (p : Option String) (t : Int) :
    (!timeTruthy (timeOf pd p) || geTime (some t) (timeOf pd p)) =
      (match truthyVal pd p with
       | none => true
       | some f => decide (f ≤ t)) := by
  unfold truthyVal
  cases h : timeOf pd p with
  | none => rfl
  | some o =>
    cases o with
    | none => rfl
    | some f =>
      by_cases hf : f = 0 <;> simp [timeTruthy, geTime, hf]

theorem leTime_side (pd : String → Option Int) (p : Option String) (t : Int) :
    (!timeTruthy (timeOf pd p) || leTime (some t) (timeOf pd p)) =
      (match truthyVal pd p with
       | none => true
       | some u => decide (t ≤ u)) := by
  unfold truthyVal
  cases h : timeOf pd p with
  | none => rfl
  | some o =>
    cases o with
    | none => rfl
    | some u =>
      by_cases hu : u = 0 <;> simp [timeTruthy, leTime, hu]

theorem entryPasses_eq_specPassTruthy (pd : String → Option Int)
    (fromP toP : Option String)
    (h : timeTruthy (timeOf pd fromP) = true ∨ timeTruthy (timeOf pd toP) = true)
    (log : LogEntry) :
    entryPasses pd (timeOf pd fromP) (timeOf pd toP) log =
      specPassTruthy pd fromP toP log := by
  unfold entryPasses specPassTruthy
  cases log.timestamp with
  | none => rfl
  | some ts =>
    by_cases hts : ts = ""
    · simp [hts]
    · simp only [beq_iff_eq, hts, if_false]
      cases hpt : pd ts with
      | some t => rw [geTime_side, leTime_side]
      | none =>
        -- NaN log time: under at least one truthy bound the entry is dropped
        rcases h with h | h
        · simp [h, geTime]
        · simp [h, geTime, leTime]

/-- Claim C2, counterexample: `from = "1970-01-01T00:00:00.000Z"` is a valid
supplied bound in the spec's sense (it is neither `"null"`, `"undefined"`
nor unparseable), but it parses to the falsy time `0`, so the handler takes
the unfiltered passthrough branch and streams the raw store — including an
entry that lacks a timestamp — instead of the filtered array the claim
requires. -/
theorem c2_zero_epoch_counterexample :
    specSuppliedBound pdEx (some "1970-01-01T00:00:00.000Z") = true ∧
    logsRoute pdEx (StoreFile.wellFormed [noTsEntry])
        (some "1970-01-01T00:00:00.000Z") none =
      Except.ok (serializeStore [noTsEntry]) ∧
    serializeStore [noTsEntry] ≠
      jsonArrayBody ([noTsEntry].filter
        (specPassOrig pdEx (some "1970-01-01T00:00:00.000Z") none)) := by
  exact ⟨by decide, rfl, by decide⟩

/-- Claim C2 (amended): for every store and every query in which at least
one of `from`/`to` is an *effective* bound — supplied, not
`"null"`/`"undefined"`, parseable, and parsing to a nonzero time (a bound
parsing to the falsy time `0` is treated as absent, like a malformed one) —
the response is the JSON array of exactly those stored entries whose parsed
timestamp satisfies both inclusive bounds (an absent side imposing no
constraint), in store order; entries lacking a timestamp (or whose
timestamp does not parse) are excluded. -/
theorem c2_filter_amended (pd : String → Option Int) (l : List LogEntry)
    (fromP toP : Option String)
    (h : truthyBound pd fromP = true ∨ truthyBound pd toP = true) :
    logsRoute pd (StoreFile.wellFormed l) fromP toP =
      Except.ok (jsonArrayBody (l.filter (specPassTruthy pd fromP toP))) := by
  rw [truthyBound_eq, truthyBound_eq] at h
  unfold logsRoute logsRouteCore
  have hc : (!timeTruthy (timeOf pd fromP) && !timeTruthy (timeOf pd toP)) = false := by
    rcases h with h | h <;> simp [h]
  rw [hc]
  simp only [Bool.false_eq_true, if_false]
  rw [List.filter_congr (fun x _ => entryPasses_eq_specPassTruthy pd fromP toP h x)]

/-- Witness for C2 (amended): a concrete store with timestamps t1 < t2 < t3
queried with `from = t2`. -/
theorem c2_filter_amended_witness :
    truthyBound pdEx (some "1970-01-01T00:00:00.002Z") = true ∧
    logsRoute pdEx (StoreFile.wellFormed demoStore)
        (some "1970-01-01T00:00:00.002Z") none =
      Except.ok (jsonArrayBody (demoStore.filter
        (specPassTruthy pdEx (some "1970-01-01T00:00:00.002Z") none))) :=
  ⟨by decide,
   c2_filter_amended pdEx demoStore (some "1970-01-01T00:00:00.002Z") none
     (Or.inl (by decide))⟩

/-- Claim C3, counterexample: when the store file does not exist, the
no-bounds query makes `createReadStream` emit an error and the handler
answers 500 — not the JSON array `[]` the claim requires. -/
theorem c3_missing_file_counterexample :
    logsRoute pdEx StoreFile.absent none none = Except.error () ∧
    (Except.error () : Except Unit String) ≠ Except.ok "[]" :=
  ⟨rfl, fun h => Except.noConfusion h⟩

/-- Claim C3 (amended): when the store file exists but is empty, a query is
never an error: with at least one effective bound the filtered branch
answers `[]` (the empty content never parses, so the `end` handler emits
`[]`), and with no effective bound the passthrough branch streams the raw —
empty — content.  When the store file does not exist, either branch answers
a 500 error. -/
theorem c3_empty_store_amended (pd : String → Option Int)
    (fromP toP : Option String) :
    logsRoute pd StoreFile.absent fromP toP = Except.error () ∧
    logsRoute pd (StoreFile.corrupt "") fromP toP =
      Except.ok (if truthyBound pd fromP || truthyBound pd toP then "[]" else "") := by
  rw [truthyBound_eq, truthyBound_eq]
  unfold logsRoute logsRouteCore
  constructor
  · cases hf : timeTruthy (timeOf pd fromP) <;>
      cases ht : timeTruthy (timeOf pd toP) <;>
      simp [hf, ht, fileContent]
  · cases hf : timeTruthy (timeOf pd fromP) <;>
      cases ht : timeTruthy (timeOf pd toP) <;>
      simp [hf, ht, fileContent]

theorem timeTruthy_none : timeTruthy none = false := rfl

theorem entryPasses_from_falsy (pd : String → Option Int)
    (a b : Option (Option Int)) (h : timeTruthy a = false) (log : LogEntry) :
    entryPasses pd a b log = entryPasses pd none b log := by
  unfold entryPasses
  cases log.timestamp with
  | none => rfl
  | some ts =>
    by_cases hts : ts = "" <;> simp [hts, h, timeTruthy_none, geTime]

theorem entryPasses_to_falsy (pd : String → Option Int)
    (a b : Option (Option Int)) (h : timeTruthy b = false) (log : LogEntry) :
    entryPasses pd a b log = entryPasses pd a none log := by
  unfold entryPasses
  cases log.timestamp with
  | none => rfl
  | some ts =>
    by_cases hts : ts = "" <;> simp [hts, h, timeTruthy_none, leTime]

theorem logsRouteCore_from_falsy (pd : String → Option Int) (file : StoreFile)
    (a b : Option (Option Int)) (h : timeTruthy a = false) :
    logsRouteCore pd file a b = logsRouteCore pd file none b := by
  unfold logsRouteCore
  rw [h]
  cases file with
  | absent => rfl
  | corrupt raw => rfl
  | wellFormed l =>
    cases hb : timeTruthy b with
    | false => rfl
    | true =>
      simp only [timeTruthy, Bool.not_false, Bool.true_and]
      rw [List.filter_congr (fun x _ => entryPasses_from_falsy pd a b h x)]

theorem logsRouteCore_to_falsy (pd : String → Option Int) (file : StoreFile)
    (a b : Option (Option Int)) (h : timeTruthy b = false) :
    logsRouteCore pd file a b = logsRouteCore pd file a none := by
  unfold logsRouteCore
  rw [h]
  cases file with
  | absent => rfl
  | corrupt raw => rfl
  | wellFormed l =>
    cases ha : timeTruthy a with
    | false => rfl
    | true =>
      simp only [timeTruthy, Bool.not_false, Bool.and_true]
      rw [List.filter_congr (fun x _ => entryPasses_to_falsy pd a b h x)]

theorem timeTruthy_malformed (pd : String → Option Int) (s : String)
    (h : s = "null" ∨ s = "undefined" ∨ pd s = none) :
    timeTruthy (timeOf pd (some s)) = false := by
  rcases h with h | h | h
  · simp [timeOf, isValidParam, h, timeTruthy]
  · simp [timeOf, isValidParam, h, timeTruthy]
  · unfold timeOf
    by_cases hv : isValidParam (some s) = true
    · simp [hv, h, timeTruthy]
    · simp [Bool.not_eq_true] at hv
      simp [hv, timeTruthy]

/-- Claim C7 (confirmed): supplying `from = "null"`, `from = "undefined"`
or an unparseable date string produces exactly the same response as
omitting `from`, and symmetrically for `to` — for every store file and
every other parameter — so a malformed bound never causes an error the
omitted bound would not. -/
theorem c7_malformed_bounds_absent (pd : String → Option Int)
    (file : StoreFile) (other : Option String) (s : String)
    (h : s = "null" ∨ s = "undefined" ∨ pd s = none) :
    logsRoute pd file (some s) other = logsRoute pd file none other ∧
    logsRoute pd file other (some s) = logsRoute pd file other none := by
  have hbad := timeTruthy_malformed pd s h
  constructor
  · exact logsRouteCore_from_falsy pd file _ _ hbad
  · exact logsRouteCore_to_falsy pd file _ _ hbad

/-- Witness for C7 at a concrete store and bound. -/
theorem c7_malformed_bounds_absent_witness :
    (logsRoute pdEx (StoreFile.wellFormed demoStore) (some "null")
        (some "1970-01-01T00:00:00.002Z") =
      logsRoute pdEx (StoreFile.wellFormed demoStore) none
        (some "1970-01-01T00:00:00.002Z")) ∧
    (logsRoute pdEx (StoreFile.wellFormed demoStore)
        (some "1970-01-01T00:00:00.002Z") (some "null") =
      logsRoute pdEx (StoreFile.wellFormed demoStore)
        (some "1970-01-01T00:00:00.002Z") none) :=
  c7_malformed_bounds_absent pdEx (StoreFile.wellFormed demoStore)
    (some "1970-01-01T00:00:00.002Z") "null" (Or.inl rfl)

/-- Claim C9, counterexample: when the external cron-expression derivation
fails (the awaited `agent.generate` rejects), `createSchedule`'s `catch`
rethrows a wrapped error instead of returning a `ScheduleConfig`, so the
create operation does not always succeed. -/
theorem c9_create_failure_counterexample :
    createSchedule ⟨[], 0⟩ "https://x/logs" "every 30 minutes"
      (Except.error "model unavailable") ⟨none, none⟩
      1730000000000 "2025-11-03T10:30:00.000Z" =
    Except.error "Failed to create schedule: model unavailable" := rfl

theorem mem_setAssoc (l : List (String × ScheduleConfig)) (k : String)
    (v : ScheduleConfig) : (k, v) ∈ setAssoc l k v := by
  unfold setAssoc
  split
  · next hany =>
    obtain ⟨p, hp, hpk⟩ := List.any_eq_true.mp hany
    have hf : (fun q : String × ScheduleConfig =>
        if q.1 == k then (k, v) else q) p = (k, v) := by
      simp [hpk]
    exact List.mem_map.mpr ⟨p, hp, hf⟩
  · exact List.mem_append_right _ (by simp)

/-- Claim C9 (amended): `createSchedule` succeeds and returns a
`ScheduleConfig` whenever the external cron-expression derivation succeeds
(the registry itself acquires no external resource and cannot fail): the
counter is bumped and a config with the requested endpoint and the cleaned
cron expression is stored; only a failure of the external interpreter makes
it throw a wrapped error. -/
theorem c9_create_amended (st : ScheduleState) (endpoint interval text : String)
    (options : ScheduleOptions) (nowMs : Nat) (nowIso : String) :
    ∃ st' r, createSchedule st endpoint interval (Except.ok text) options
        nowMs nowIso = Except.ok (st', r) ∧
      r.cronExpression = cleanCron text ∧
      st'.counter = st.counter + 1 ∧
      (st'.schedules.any (fun p =>
        p.2.endpoint == endpoint && p.2.cronExpression == cleanCron text)) = true := by
  refine ⟨_, _, rfl, rfl, rfl, ?_⟩
  apply List.any_eq_true.mpr
  refine ⟨_, mem_setAssoc st.schedules _ _, ?_⟩
  simp

/-- Claim C10 (confirmed): a log fetch answered with HTTP 401 or 403 throws
an authentication-required failure, any other non-2xx status (such as 500)
throws a generic fetch failure, both are surfaced as failures to the
caller, and the two failures are distinguishable (distinct messages). -/
theorem c10_auth_error_classified (parseJson : String → Option (List LogEntry))
    (r1 r2 : HttpResponse) (h1 : r1.status = 401 ∨ r1.status = 403)
    (h2 : respOk r2 = false) (h3 : r2.status ≠ 401) (h4 : r2.status ≠ 403) :
    getLogs parseJson r1 =
      Except.error ("Authentication required: " ++
        (toString r1.status ++ (" " ++ (r1.statusText ++
          ". Please provide a valid auth token.")))) ∧
    getLogs parseJson r2 =
      Except.error ("Failed to fetch logs: " ++
        (toString r2.status ++ (" " ++ r2.statusText))) ∧
    getLogs parseJson r1 ≠ getLogs parseJson r2 := by
  have hok1 : respOk r1 = false := by
    rcases h1 with h | h <;> simp [respOk, h]
  have e1 : getLogs parseJson r1 =
      Except.error ("Authentication required: " ++
        (toString r1.status ++ (" " ++ (r1.statusText ++
          ". Please provide a valid auth token.")))) := by
    rcases h1 with h | h <;> simp [getLogs, respOk, h]
  have e2 : getLogs parseJson r2 =
      Except.error ("Failed to fetch logs: " ++
        (toString r2.status ++ (" " ++ r2.statusText))) := by
    simp [getLogs, h2, h3, h4]
  refine ⟨e1, e2, ?_⟩
  rw [e1, e2]
  intro hEq
  have hmsg := Except.error.inj hEq
  have hA : ("Authentication required: " ++
      (toString r1.status ++ (" " ++ (r1.statusText ++
        ". Please provide a valid auth token.")))).data.head? = some 'A' := rfl
  have hF : ("Failed to fetch logs: " ++
      (toString r2.status ++ (" " ++ r2.statusText))).data.head? = some 'F' := rfl
  have hhead := congrArg (fun s : String => s.data.head?) hmsg
  dsimp only at hhead
  rw [hA, hF] at hhead
  exact absurd hhead (by decide)

/-- Witness for C10: a 403 response versus a 500 response. -/
theorem c10_auth_error_classified_witness :
    getLogs (fun _ => none) ⟨403, "Forbidden", none⟩ =
      Except.error ("Authentication required: " ++
        (toString (403 : Nat) ++ (" " ++ ("Forbidden" ++
          ". Please provide a valid auth token.")))) ∧
    getLogs (fun _ => none) ⟨500, "Internal Server Error", none⟩ =
      Except.error ("Failed to fetch logs: " ++
        (toString (500 : Nat) ++ (" " ++ "Internal Server Error"))) ∧
    getLogs (fun _ => none) ⟨403, "Forbidden", none⟩ ≠
      getLogs (fun _ => none) ⟨500, "Internal Server Error", none⟩ :=
  c10_auth_error_classified (fun _ => none) ⟨403, "Forbidden", none⟩
    ⟨500, "Internal Server Error", none⟩ (Or.inr rfl) (by decide)
    (by decide) (by decide)
